import Mathlib

/-!
Shallow embedding of the `materials_for_mc` neutronics materials library.

The Rust core of the repository is not shipped alongside its Python test
suite, so the definitions below are modelled from the specification
(`spec.md`), with the repository's Python tests pinning concrete behaviour
wherever they exercise it.  All machine floating point arithmetic is
embedded as exact rational arithmetic over `ℚ`.
-/

namespace MaterialsForMC

/-- A tabulated reaction: paired energy grid (eV, strictly ascending) and
cross-section values (barns) of equal length. -/
structure Reaction where
  energy : List ℚ
  cross_section : List ℚ
deriving Repr, DecidableEq

/-- Avogadro's number, atoms per mole. -/
def avogadro : ℚ := 6.02214076e23

/-- Conversion factor from barns to cm². -/
def barnToCm2 : ℚ := 1e-24

/-- Modelled from the spec: the bundled atomic-mass table (unified atomic
mass units).  The full table ships with the Rust core, which is not in the
repository snapshot; only the entries exercised by the tests are modelled.
Nuclides with no entry fall back to mass 1 (documented fallback). -/
def atomicMassOf : String → Option ℚ
  | "Li6" => some 6.0151228874
  | "Li7" => some 7.0160034366
  | "Be9" => some 9.012183065
  | _ => none

/-- Atomic mass with the documented fallback of 1 for unknown nuclides. -/
def massOr1 (id : String) : ℚ := (atomicMassOf id).getD 1

/-- Error kinds surfaced by Material operations. -/
inductive MatError where
  | valueError (msg : String)
  | notARecognizedElementSymbol (sym : String)
deriving Repr, DecidableEq

/-- Modelled from the spec: the Material data model.  `nuclides` is the
composition as (nuclide id, fraction) entries kept sorted alphabetically
by id; `density` is the optional (units, value) pair; `nuclideData` holds
the loaded per-nuclide reaction tables (MT → Reaction) at the material's
temperature. -/
structure Material where
  nuclides : List (String × ℚ)
  density : Option (String × ℚ)
  volume : Option ℚ
  temperature : String
  nuclideData : List (String × List (Nat × Reaction))
deriving Repr, DecidableEq

/-- A fresh material: empty composition, no density, no volume,
default temperature "294". -/
def Material.new : Material :=
  { nuclides := [], density := none, volume := none,
    temperature := "294", nuclideData := [] }

/-- Insert a (nuclide, fraction) entry keeping the list sorted by id and
replacing an existing entry with the same id. -/
def insertNuclide (id : String) (frac : ℚ) : List (String × ℚ) → List (String × ℚ)
  | [] => [(id, frac)]
  | (j, g) :: rest =>
    if id = j then (id, frac) :: rest
    else if id < j then (id, frac) :: (j, g) :: rest
    else (j, g) :: insertNuclide id frac rest

/-- `Material.add_nuclide`: inserts or replaces a composition entry. -/
def Material.add_nuclide (m : Material) (id : String) (frac : ℚ) : Material :=
  { m with nuclides := insertNuclide id frac m.nuclides }

/-- `Material.set_density(units, value)`. -/
def Material.set_density (m : Material) (units : String) (v : ℚ) : Material :=
  { m with density := some (units, v) }

/-- The `volume` property setter: rejects non-positive values with a
ValueError ("Volume must be positive", as asserted by the tests) and
leaves the material unchanged in that case. -/
def Material.set_volume (m : Material) (v : ℚ) : Material × Option MatError :=
  if 0 < v then ({ m with volume := some v }, none)
  else (m, some (.valueError "Volume must be positive"))

/-- One row of the bundled element table: symbol, element name, atomic
number Z, and the naturally occurring isotopes with atom-fraction
abundances. -/
structure ElementEntry where
  symbol : String
  ename : String
  atomic_number : Nat
  isotopes : List (String × ℚ)
deriving Repr, DecidableEq

/-- Modelled from the spec: the bundled natural-abundance element table
(the full table ships with the Rust core, absent from the snapshot); the
entries exercised by the tests are modelled, with the IUPAC lithium
abundances named by the spec. -/
def elementTable : List ElementEntry :=
  [ { symbol := "H", ename := "hydrogen", atomic_number := 1,
      isotopes := [("H1", 0.99984426), ("H2", 0.00015574)] },
    { symbol := "Li", ename := "lithium", atomic_number := 3,
      isotopes := [("Li6", 0.07589), ("Li7", 0.92411)] },
    { symbol := "Al", ename := "aluminium", atomic_number := 13,
      isotopes := [("Al27", 1)] },
    { symbol := "Fe", ename := "iron", atomic_number := 26,
      isotopes := [("Fe54", 0.05845), ("Fe56", 0.91754),
                   ("Fe57", 0.02119), ("Fe58", 0.00282)] },
    { symbol := "W", ename := "tungsten", atomic_number := 74,
      isotopes := [("W180", 0.0012), ("W182", 0.265), ("W183", 0.1431),
                   ("W184", 0.3064), ("W186", 0.2843)] },
    { symbol := "U", ename := "uranium", atomic_number := 92,
      isotopes := [("U234", 0.000054), ("U235", 0.007204),
                   ("U238", 0.992742)] } ]

/-- Lower-case a string character by character (structurally, over the
underlying character list). -/
def lowerStr (s : String) : String :=
  ⟨s.data.map Char.toLower⟩

/-- Case-insensitive lookup of an element by symbol or name. -/
def findElement (s : String) : Option ElementEntry :=
  elementTable.find? (fun e => lowerStr e.symbol == lowerStr s || lowerStr e.ename == lowerStr s)

/-- `Element.get_nuclides()`: the isotope ids of the element.  The tests
pin that an unknown symbol yields an empty list (no error). -/
def elementGetNuclides (s : String) : List String :=
  match findElement s with
  | none => []
  | some e => e.isotopes.map (·.1)

/-- `Element.atomic_number`: the tests pin that an unknown symbol yields
`None` (no error). -/
def elementAtomicNumber (s : String) : Option Nat :=
  (findElement s).map (·.atomic_number)

/-- `Material.add_element`: expands an element into its isotopes, each
with `fraction × abundance`; an unknown symbol fails with the
"not a recognized element symbol" error pinned by the tests. -/
def Material.add_element (m : Material) (sym : String) (frac : ℚ) :
    Except MatError Material :=
  match findElement sym with
  | none => .error (.notARecognizedElementSymbol sym)
  | some e => .ok (e.isotopes.foldl (fun acc iso => acc.add_nuclide iso.1 (frac * iso.2)) m)

/-- Modelled from the spec: `Material.get_atoms_per_cc()`.  Returns the
empty mapping when density is unset.  For mass densities the per-nuclide
value follows the concrete scenario of the spec (§8, scenario 2) and the
expected values of `test_get_atoms_per_cc`:
`Nᵢ = N_A · ρ · (fᵢ/Mᵢ) / Σⱼ (fⱼ/Mⱼ)` (which for Li6/Li7 at equal
fractions and ρ = 1 g/cm³ gives ≈3.24e23 and ≈2.78e23 atoms/cm³).
`atom/b-cm` densities bypass the mass division. -/
def Material.get_atoms_per_cc (m : Material) : List (String × ℚ) :=
  match m.density with
  | none => []
  | some (units, rho) =>
    if units = "atom/b-cm" then
      let fsum := (m.nuclides.map (·.2)).sum
      m.nuclides.map (fun p => (p.1, rho * 1e24 * p.2 / fsum))
    else
      let rhoG := if units = "kg/m3" then rho / 1000 else rho
      let dsum := (m.nuclides.map (fun q => q.2 / massOr1 q.1)).sum
      m.nuclides.map (fun p => (p.1, avogadro * rhoG * (p.2 / massOr1 p.1) / dsum))

/-- Tail of the lin-lin interpolation walk: `(e0, s0)` is the last sample
at or below the query energy `E`.  Past the last tabulated point the
cross section is held flat at the last value. -/
def interpTail (e0 s0 : ℚ) : List (ℚ × ℚ) → ℚ → ℚ
  | [], _ => s0
  | (e1, s1) :: rest, E =>
    if E < e1 then s0 + (s1 - s0) * (E - e0) / (e1 - e0)
    else interpTail e1 s1 rest E

/-- Modelled from the spec: cross-section interpolation at a query energy
on a reaction's (Eᵢ, σᵢ) table — zero below the first point, flat above
the last point, lin-lin between bracketing samples. -/
def interpolate (pts : List (ℚ × ℚ)) (E : ℚ) : ℚ :=
  match pts with
  | [] => 0
  | (e0, s0) :: rest => if E < e0 then 0 else interpTail e0 s0 rest E

/-- The (energy, cross-section) sample pairs of a reaction. -/
def Reaction.table (r : Reaction) : List (ℚ × ℚ) :=
  r.energy.zip r.cross_section

/-- A reaction's interpolated cross section at energy `E`. -/
def Reaction.interp (r : Reaction) (E : ℚ) : ℚ :=
  interpolate r.table E

/-- Relative tolerance under which two consecutive grid energies are
merged as numerically identical. -/
def gridTolerance : ℚ := 1e-12

/-- Collapse consecutive sorted grid values whose relative distance is
below `gridTolerance`. -/
def dedupGrid : List ℚ → List ℚ
  | [] => []
  | [a] => [a]
  | a :: b :: rest =>
    if b - a < gridTolerance * b then dedupGrid (a :: rest)
    else a :: dedupGrid (b :: rest)
termination_by l => l.length

/-- The loaded reaction table (MT → Reaction) of a composition nuclide. -/
def Material.dataOf (m : Material) (id : String) : List (Nat × Reaction) :=
  (List.lookup id m.nuclideData).getD []

/-- All tabulated energy points across every reaction of every nuclide in
the composition, at the material's temperature. -/
def Material.allEnergies (m : Material) : List ℚ :=
  (m.nuclides.map (fun p => ((m.dataOf p.1).map (fun q => q.2.energy)).flatten)).flatten

/-- Modelled from the spec: `Material.unified_energy_grid_neutron()` — the
sorted merge of all composition energy points with near-duplicates
collapsed. -/
def Material.unified_energy_grid_neutron (m : Material) : List ℚ :=
  dedupGrid (List.insertionSort (· ≤ ·) m.allEnergies)

/-- A nuclide reaction table's interpolated cross section for a given MT;
zero when the MT is not tabulated for this nuclide. -/
def microAt (nd : List (Nat × Reaction)) (mt : Nat) (E : ℚ) : ℚ :=
  match List.lookup mt nd with
  | none => 0
  | some r => r.interp E

/-- Whether a nuclide's reaction table directly carries an MT. -/
def ndCarries (nd : List (Nat × Reaction)) (mt : Nat) : Bool :=
  (List.lookup mt nd).isSome

/-- Whether some nuclide in the composition directly carries an MT. -/
def Material.carries (m : Material) (mt : Nat) : Bool :=
  m.nuclides.any (fun p => ndCarries (m.dataOf p.1) mt)

/-- A nuclide's atoms-per-cm³ value (zero when absent from the map). -/
def Material.atomsOf (m : Material) (id : String) : ℚ :=
  (List.lookup id m.get_atoms_per_cc).getD 0

/-- The macroscopic cross section of a directly tabulated MT at one
energy: Σᵢ Nᵢ · σᵢ(E) · 1e-24. -/
def Material.macroAt (m : Material) (mt : Nat) (E : ℚ) : ℚ :=
  (m.nuclides.map (fun p => m.atomsOf p.1 * microAt (m.dataOf p.1) mt E * barnToCm2)).sum

/-- The children summed when MT 3 (nonelastic) is synthesised. -/
def mt3Children : List Nat :=
  [4, 16, 17, 22, 23, 24, 25, 26, 28, 29, 30, 31, 32, 33, 34, 35, 36, 37,
   41, 42, 44, 45, 102, 103, 104, 105, 106, 107, 108, 109,
   111, 112, 113, 114, 115, 116, 117]

/-- The children summed when MT 4 (inelastic-sum) is synthesised. -/
def mt4Children : List Nat := (List.range 41).map (· + 51)

/-- The children summed when MT 101 (disappearance) is synthesised. -/
def mt101Children : List Nat := (List.range 16).map (· + 102)

/-- The children summed when MT 27 (absorption) is synthesised (fission
contributes when present in the data). -/
def mt27Children : List Nat := 18 :: mt101Children

/-- Modelled from the spec: the sum-rule table.  MT 1 is a primary datum
and is never synthesised from children. -/
def sumRuleChildren : Nat → Option (List Nat)
  | 3 => some mt3Children
  | 4 => some mt4Children
  | 27 => some mt27Children
  | 101 => some mt101Children
  | _ => none

/-- Per-nuclide sum-rule synthesis at one energy: the sum of the
children this nuclide carries, interpolated at `E`. -/
def synthNuclideAt (nd : List (Nat × Reaction)) (children : List Nat) (E : ℚ) : ℚ :=
  ((children.filter (fun c => ndCarries nd c)).map (fun c => microAt nd c E)).sum

/-- Macroscopic sum-rule synthesis at one energy: per-nuclide children
summed first, then weighted and accumulated (one of the two forms the
spec allows). -/
def Material.synthAt (m : Material) (children : List Nat) (E : ℚ) : ℚ :=
  (m.nuclides.map (fun p =>
    m.atomsOf p.1 * synthNuclideAt (m.dataOf p.1) children E * barnToCm2)).sum

/-- The sorted union of MT numbers across the composition. -/
def Material.allMTs (m : Material) : List Nat :=
  List.insertionSort (· ≤ ·)
    ((m.nuclides.map (fun p => (m.dataOf p.1).map (·.1))).flatten.dedup)

/-- The MT list a macroscopic request works through: the filter when one
is given, the full sorted union otherwise. -/
def Material.requestedMTs (m : Material) : Option (List Nat) → List Nat
  | some f => f
  | none => m.allMTs

/-- One requested MT's entry in the macroscopic result: direct
accumulation when some nuclide carries it; sum-rule synthesis when it is
absent but synthesisable with at least one tabulated child; otherwise no
entry. -/
def Material.macroEntry (m : Material) (grid : List ℚ) (mt : Nat) :
    Option (Nat × List ℚ) :=
  if m.carries mt then some (mt, grid.map (m.macroAt mt))
  else
    match sumRuleChildren mt with
    | some cs =>
      if cs.any (fun c => m.carries c) then some (mt, grid.map (m.synthAt cs))
      else none
    | none => none

/-- Modelled from the spec:
`Material.calculate_macroscopic_xs_neutron(mt_filter, by_nuclide=False)` —
the mapping MT → macroscopic values on the unified grid, restricted to
the requested MTs, with sum-rule synthesis only for requested-but-absent
MTs. -/
def Material.calculate_macroscopic_xs_neutron (m : Material)
    (mt_filter : Option (List Nat)) : List (Nat × List ℚ) :=
  (m.requestedMTs mt_filter).filterMap (m.macroEntry m.unified_energy_grid_neutron)

/-- Modelled from the spec:
`Material.calculate_microscopic_xs_neutron(mt_filter)` — for each
composition nuclide, the mapping MT → interpolated values on the unified
grid; with a filter only the filtered MTs the nuclide carries are
produced. -/
def Material.calculate_microscopic_xs_neutron (m : Material)
    (mt_filter : Option (List Nat)) : List (String × List (Nat × List ℚ)) :=
  let grid := m.unified_energy_grid_neutron
  m.nuclides.map (fun p =>
    let nd := m.dataOf p.1
    let mts : List Nat := match mt_filter with
      | some f => f.filter (fun mt => ndCarries nd mt)
      | none => nd.map (·.1)
    (p.1, mts.map (fun mt => (mt, grid.map (microAt nd mt)))))

/-- A parsed nuclide data source: the temperature-keyed reaction section
(temperature label → MT → Reaction).  The identity fields of the JSON
schema are not needed by the properties below. -/
structure NuclideSource where
  data : List (String × List (Nat × Reaction))
deriving Repr, DecidableEq

/-- The Nuclide data model: temperature labels present in the source,
labels resident in memory, and the loaded reaction tables. -/
structure Nuclide where
  name : String
  available_temperatures : List String
  loaded_temperatures : List String
  reactions : List (String × List (Nat × Reaction))
deriving Repr, DecidableEq

/-- Error kinds surfaced by Nuclide operations.  `autoLoadRequired` marks
the branch where the real loader would fetch an unloaded-but-available
temperature through the Config registry; the registry and its I/O sit
outside this embedding. -/
inductive NucError where
  | temperatureNotPresent (t : String) (available : List String)
  | temperatureNotFound (t : String) (available : List String)
  | autoLoadRequired (t : String)
  | mtNotFound (mt : Nat) (mts : List Nat)
  | noTemperaturesLoaded (nm : String)
  | multipleTemperaturesLoaded (loaded : List String)
deriving Repr, DecidableEq

/-- Modelled from the spec:
`Nuclide.read_nuclide_from_json(source, temperatures?)` — record every
temperature present in the source as available; load all of them when the
parameter is absent, only the requested ones when it is present, and fail
when a requested label is not available. -/
def read_nuclide_from_json (nm : String) (src : NuclideSource)
    (temperatures : Option (List String)) : Except NucError Nuclide :=
  let avail := src.data.map (·.1)
  match temperatures with
  | none => .ok { name := nm, available_temperatures := avail,
                  loaded_temperatures := avail, reactions := src.data }
  | some ts =>
    match ts.find? (fun t => !avail.contains t) with
    | some t => .error (.temperatureNotPresent t avail)
    | none => .ok { name := nm, available_temperatures := avail,
                    loaded_temperatures := ts,
                    reactions := src.data.filter (fun p => ts.contains p.1) }

/-- Resolve a directly tabulated reaction at a resolved temperature,
returning the pair (energies, xs). -/
def Nuclide.lookupReaction (n : Nuclide) (mt : Nat) (t : String) :
    Except NucError (List ℚ × List ℚ) :=
  match List.lookup t n.reactions with
  | none => .error (.temperatureNotFound t n.available_temperatures)
  | some rmap =>
    match List.lookup mt rmap with
    | none => .error (.mtNotFound mt (rmap.map (·.1)))
    | some r => .ok (r.energy, r.cross_section)

/-- Modelled from the spec:
`Nuclide.microscopic_cross_section(reaction, temperature?)` — with an
explicit loaded temperature the reaction's own grid and tabulated values
are returned as (energies, xs); the temperature may be omitted only when
exactly one temperature is loaded; with several loaded the call fails
naming every loaded temperature. -/
def Nuclide.microscopic_cross_section (n : Nuclide) (mt : Nat)
    (temperature : Option String) : Except NucError (List ℚ × List ℚ) :=
  match temperature with
  | some t =>
    if n.loaded_temperatures.contains t then n.lookupReaction mt t
    else if n.available_temperatures.contains t then .error (.autoLoadRequired t)
    else .error (.temperatureNotFound t n.available_temperatures)
  | none =>
    match n.loaded_temperatures with
    | [] => .error (.noTemperaturesLoaded n.name)
    | [t] => n.lookupReaction mt t
    | t1 :: t2 :: rest => .error (.multipleTemperaturesLoaded (t1 :: t2 :: rest))

/-! ### Concrete sample data

Small reaction tables in the shape of the repository's Be9/Li test data,
used by the witness theorems below. -/

/-- Sample elastic table at 294 K. -/
def rElastic294 : Reaction := ⟨[1, 10, 100], [6, 5, 4]⟩

/-- Sample elastic table at 300 K. -/
def rElastic300 : Reaction := ⟨[1, 10, 100], [7, 6, 5]⟩

/-- Sample capture table at 294 K. -/
def rGamma294 : Reaction := ⟨[1, 10, 100], [5, 2, 1]⟩

/-- Sample two-temperature source in the shape of the Be9 test file. -/
def sampleSource : NuclideSource :=
  ⟨[("294", [(2, rElastic294), (102, rGamma294)]), ("300", [(2, rElastic300)])]⟩

/-- Sample nuclide with both temperatures loaded. -/
def sampleBe9 : Nuclide :=
  { name := "Be9", available_temperatures := ["294", "300"],
    loaded_temperatures := ["294", "300"], reactions := sampleSource.data }

/-- Sample nuclide with a single loaded temperature. -/
def sampleBe9single : Nuclide :=
  { name := "Be9", available_temperatures := ["294", "300"],
    loaded_temperatures := ["294"],
    reactions := [("294", [(2, rElastic294), (102, rGamma294)])] }

/-- Sample Li6-like reaction set: elastic, (n,2nα) and capture — MT 3 is
not tabulated, while two of its sum-rule children are. -/
def li6Data : List (Nat × Reaction) :=
  [(2, ⟨[1, 10, 100], [2, 3, 4]⟩),
   (24, ⟨[10, 100], [0, 1]⟩),
   (102, ⟨[1, 10, 100], [5, 2, 1]⟩)]

/-- Sample Li7-like reaction set. -/
def li7Data : List (Nat × Reaction) :=
  [(2, ⟨[1, 100], [1, 2]⟩), (102, ⟨[1, 100], [3, 1]⟩)]

/-- Sample material: Li6/Li7 at equal fractions, 1 g/cm³, with the sample
data loaded. -/
def liDataMaterial : Material :=
  { nuclides := [("Li6", 1/2), ("Li7", 1/2)],
    density := some ("g/cm3", 1), volume := none, temperature := "294",
    nuclideData := [("Li6", li6Data), ("Li7", li7Data)] }

/-- Sample material without loaded reaction data, as built by
`add_nuclide`/`set_density` in `test_get_atoms_per_cc`. -/
def liMaterial : Material :=
  ((Material.new.add_nuclide "Li6" (1/2)).add_nuclide "Li7" (1/2)).set_density "g/cm3" 1

/-! ### Helper lemmas on list sums and association-list lookups -/

theorem sum_map_add_q {α : Type} (l : List α) (f g : α → ℚ) :
    (l.map (fun x => f x + g x)).sum = (l.map f).sum + (l.map g).sum := by
  induction l with
  | nil => simp
  | cons a t ih =>
    rw [List.map_cons, List.sum_cons, List.map_cons, List.sum_cons,
      List.map_cons, List.sum_cons, ih]
    ring

theorem mul_sum_mul_q {α : Type} (a b : ℚ) (l : List α) (f : α → ℚ) :
    a * (l.map f).sum * b = (l.map (fun x => a * f x * b)).sum := by
  induction l with
  | nil => simp
  | cons x t ih =>
    rw [List.map_cons, List.sum_cons, List.map_cons, List.sum_cons, ← ih]
    ring

theorem sum_comm_q {α β : Type} (I : List α) (C : List β) (g : α → β → ℚ) :
    (I.map (fun i => (C.map (g i)).sum)).sum =
      (C.map (fun c => (I.map (fun i => g i c)).sum)).sum := by
  induction I with
  | nil => simp
  | cons a t ih =>
    have hstep : C.map (fun c => ((a :: t).map (fun i => g i c)).sum) =
        C.map (fun c => g a c + (t.map (fun i => g i c)).sum) := by
      simp only [List.map_cons, List.sum_cons]
    rw [List.map_cons, List.sum_cons, ih, hstep, sum_map_add_q]

theorem sum_filter_zero_q {α : Type} (l : List α) (p : α → Bool) (f : α → ℚ)
    (h : ∀ x ∈ l, p x = false → f x = 0) :
    ((l.filter p).map f).sum = (l.map f).sum := by
  induction l with
  | nil => rfl
  | cons a t ih =>
    have ht : ∀ x ∈ t, p x = false → f x = 0 :=
      fun x hx => h x (List.mem_cons_of_mem a hx)
    cases hp : p a with
    | true => simp only [List.filter_cons, hp, if_true, List.map_cons, List.sum_cons, ih ht]
    | false =>
      simp only [List.filter_cons, hp, Bool.false_eq_true, if_false, List.map_cons,
        List.sum_cons, ih ht, h a (List.mem_cons_self a t) hp, zero_add]

theorem lookup_map_snd_q {α β γ : Type} [BEq α] (l : List (α × β)) (φ : β → γ) (k : α) :
    List.lookup k (l.map (fun p => (p.1, φ p.2))) = (List.lookup k l).map φ := by
  induction l with
  | nil => rfl
  | cons a t ih =>
    simp only [List.map_cons, List.lookup]
    cases k == a.1 <;> simp [ih]

theorem lookup_graph_q {β : Type} (G : Nat → β) (mts : List Nat) (k : Nat) :
    List.lookup k (mts.map (fun mt => (mt, G mt))) =
      if k ∈ mts then some (G k) else none := by
  induction mts with
  | nil => simp
  | cons a t ih =>
    simp only [List.map_cons, List.lookup]
    by_cases hka : k = a
    · subst hka; simp
    · have hb : (k == a) = false := beq_eq_false_iff_ne.mpr hka
      simp [hb, ih, List.mem_cons, hka]

theorem lookup_keyed_str_q {β : Type} (F : String → β) (l : List (String × ℚ)) (k : String)
    (hk : k ∈ l.map (·.1)) :
    List.lookup k (l.map (fun p => (p.1, F p.1))) = some (F k) := by
  induction l with
  | nil => simp at hk
  | cons a t ih =>
    simp only [List.map_cons, List.lookup]
    by_cases hka : k = a.1
    · subst hka; simp
    · have hb : (k == a.1) = false := beq_eq_false_iff_ne.mpr hka
      rw [hb]
      exact ih (by
        rcases List.mem_cons.mp hk with h | h
        · exact absurd h hka
        · exact h)

theorem lookup_filterMap_none_q {β : Type} (g : Nat → Option (Nat × β))
    (hg : ∀ x p, g x = some p → p.1 = x) (l : List Nat) (mt : Nat) (h : mt ∉ l) :
    List.lookup mt (l.filterMap g) = none := by
  induction l with
  | nil => rfl
  | cons a t ih =>
    have hmt : mt ∉ t := fun hm => h (List.mem_cons_of_mem a hm)
    have hne : mt ≠ a := fun e => h (e ▸ List.mem_cons_self a t)
    rw [List.filterMap_cons]
    cases hga : g a with
    | none => exact ih hmt
    | some p =>
      have hpa : p.1 = a := hg a p hga
      have hb : (mt == p.1) = false := beq_eq_false_iff_ne.mpr (hpa ▸ hne)
      simp only [List.lookup, hb, ih hmt]

/-- Every entry `macroEntry` emits is keyed by the requested MT itself. -/
theorem macroEntry_key (m : Material) (grid : List ℚ) (mt : Nat) (p : Nat × List ℚ)
    (h : m.macroEntry grid mt = some p) : p.1 = mt := by
  unfold Material.macroEntry at h
  split at h
  · cases h; rfl
  · split at h
    · split at h
      · cases h; rfl
      · cases h
    · cases h

/-! ### Claim theorems -/

/-- C10: assigning a non-positive value to the `volume` property fails
with the ValueError "Volume must be positive" and leaves the material —
in particular the readable volume — unchanged; a fresh Material starts
with volume None. -/
theorem c10_volume_setter_rejects_nonpositive (m : Material) (v : ℚ) (h : v ≤ 0) :
    (m.set_volume v).2 = some (.valueError "Volume must be positive") ∧
    (m.set_volume v).1 = m ∧
    (m.set_volume v).1.volume = m.volume ∧
    Material.new.volume = none := by
  unfold Material.set_volume
  rw [if_neg (not_lt.mpr h)]
  exact ⟨rfl, rfl, rfl, rfl⟩

/-- Witness for C10 at the concrete input of `test_volume_set_and_get`:
a fresh material and the invalid volume −50. -/
theorem c10_volume_setter_rejects_nonpositive_witness :
    (-50 : ℚ) ≤ 0 ∧
    ((Material.new.set_volume (-50)).2 = some (.valueError "Volume must be positive") ∧
      (Material.new.set_volume (-50)).1 = Material.new ∧
      (Material.new.set_volume (-50)).1.volume = Material.new.volume ∧
      Material.new.volume = none) :=
  ⟨by norm_num,
   c10_volume_setter_rejects_nonpositive Material.new (-50) (by norm_num)⟩

/-- C9 counterexample: for the unknown symbol "Zz" the element-table
lookup used to list isotopes does not fail — `get_nuclides` returns the
empty list and `atomic_number` returns None, exactly as
`test_nonexistent_element` and `test_atomic_number` assert. -/
theorem c9_counterexample :
    findElement "Zz" = none ∧
    elementGetNuclides "Zz" = [] ∧
    elementAtomicNumber "Zz" = none :=
  ⟨rfl, rfl, rfl⟩

/-- C9 (amended): for every symbol or name not in the element table,
`Material.add_element` fails with the "not a recognized element symbol"
error, while the Element isotope-listing lookup returns the empty list
and the atomic-number lookup returns None (no error). -/
theorem c9_amended_unknown_element (m : Material) (s : String) (frac : ℚ)
    (h : findElement s = none) :
    m.add_element s frac = .error (.notARecognizedElementSymbol s) ∧
    elementGetNuclides s = [] ∧
    elementAtomicNumber s = none := by
  unfold Material.add_element elementGetNuclides elementAtomicNumber
  rw [h]
  exact ⟨rfl, rfl, rfl⟩

/-- Witness for C9 (amended) at the unknown symbol "Xx" of
`test_add_element_not_found`. -/
theorem c9_amended_unknown_element_witness :
    findElement "Xx" = none ∧
    (Material.new.add_element "Xx" 1 = .error (.notARecognizedElementSymbol "Xx") ∧
      elementGetNuclides "Xx" = [] ∧
      elementAtomicNumber "Xx" = none) :=
  ⟨rfl, c9_amended_unknown_element Material.new "Xx" 1 rfl⟩

/-- C4: a macroscopic request whose mt_filter does not contain MT 1 never
populates MT 1 in the result — requesting a child MT (such as 24 or 3)
does not synthesise its parent. -/
theorem c4_child_does_not_populate_parent (m : Material) (f : List Nat)
    (h : (1 : Nat) ∉ f) :
    List.lookup 1 (m.calculate_macroscopic_xs_neutron (some f)) = none := by
  unfold Material.calculate_macroscopic_xs_neutron Material.requestedMTs
  exact lookup_filterMap_none_q _ (macroEntry_key m _) f 1 h

/-- Witness for C4 at the concrete filters `[24]` and `[3]` of
`test_macroscopic_xs_mt24_does_not_generate_mt1` and
`test_macroscopic_xs_mt3_does_not_generate_mt1`. -/
theorem c4_child_does_not_populate_parent_witness :
    ((1 : Nat) ∉ ([24] : List Nat) ∧
      List.lookup 1 (liDataMaterial.calculate_macroscopic_xs_neutron (some [24])) = none) ∧
    ((1 : Nat) ∉ ([3] : List Nat) ∧
      List.lookup 1 (liDataMaterial.calculate_macroscopic_xs_neutron (some [3])) = none) :=
  ⟨⟨by decide, c4_child_does_not_populate_parent liDataMaterial [24] (by decide)⟩,
   ⟨by decide, c4_child_does_not_populate_parent liDataMaterial [3] (by decide)⟩⟩

/-- C2: for every loaded Nuclide, directly tabulated MT and loaded
temperature, `microscopic_cross_section(reaction, temperature)` returns
the pair (energies, xs) in that order — the reaction's own strictly
ascending energy grid at that temperature first, the tabulated
cross-section values second. -/
theorem c2_microscopic_cross_section_pair (n : Nuclide) (t : String) (mt : Nat)
    (rmap : List (Nat × Reaction)) (r : Reaction)
    (hload : t ∈ n.loaded_temperatures)
    (hT : List.lookup t n.reactions = some rmap)
    (hmt : List.lookup mt rmap = some r)
    (hasc : List.Chain' (· < ·) r.energy) :
    n.microscopic_cross_section mt (some t) = .ok (r.energy, r.cross_section) ∧
    List.Chain' (· < ·) r.energy := by
  refine ⟨?_, hasc⟩
  unfold Nuclide.microscopic_cross_section Nuclide.lookupReaction
  simp [hload, hT, hmt]

/-- Witness for C2 at the sample two-temperature nuclide, MT 2,
temperature "294". -/
theorem c2_microscopic_cross_section_pair_witness :
    "294" ∈ sampleBe9.loaded_temperatures ∧
    List.Chain' (· < ·) rElastic294.energy ∧
    sampleBe9.microscopic_cross_section 2 (some "294") =
      .ok (rElastic294.energy, rElastic294.cross_section) :=
  ⟨by decide,
   by norm_num [rElastic294, List.chain'_cons, List.chain'_singleton],
   (c2_microscopic_cross_section_pair sampleBe9 "294" 2
      [(2, rElastic294), (102, rGamma294)] rElastic294 (by decide) rfl rfl
      (by norm_num [rElastic294, List.chain'_cons, List.chain'_singleton])).1⟩

/-- C5: with the temperature argument omitted, `microscopic_cross_section`
fails with the error naming every loaded temperature exactly when more
than one temperature is loaded; with exactly one loaded temperature the
call equals — and, when the MT is tabulated there, succeeds like — the
call with that temperature passed explicitly. -/
theorem c5_omitted_temperature_resolution (n : Nuclide) (mt : Nat) :
    (n.microscopic_cross_section mt none =
        .error (.multipleTemperaturesLoaded n.loaded_temperatures) ↔
      1 < n.loaded_temperatures.length) ∧
    (∀ t, n.loaded_temperatures = [t] →
      n.microscopic_cross_section mt none = n.microscopic_cross_section mt (some t)) ∧
    (∀ t rmap r, n.loaded_temperatures = [t] →
      List.lookup t n.reactions = some rmap → List.lookup mt rmap = some r →
      n.microscopic_cross_section mt none = .ok (r.energy, r.cross_section)) := by
  refine ⟨?_, ?_, ?_⟩
  · rcases hl : n.loaded_temperatures with _ | ⟨t1, _ | ⟨t2, rest⟩⟩
    · simp [Nuclide.microscopic_cross_section, hl]
    · simp only [Nuclide.microscopic_cross_section, hl, List.length_singleton,
        lt_self_iff_false, iff_false]
      unfold Nuclide.lookupReaction
      cases hT : List.lookup t1 n.reactions with
      | none => simp [hT]
      | some rmap =>
        cases hmt : List.lookup mt rmap with
        | none => simp [hT, hmt]
        | some r => simp [hT, hmt]
    · simp [Nuclide.microscopic_cross_section, hl]
  · intro t hl
    simp [Nuclide.microscopic_cross_section, hl]
  · intro t rmap r hl hT hmt
    simp [Nuclide.microscopic_cross_section, hl, Nuclide.lookupReaction, hT, hmt]

/-- Witness for C5: the two-temperature sample fails naming both loaded
temperatures; the single-temperature sample matches the explicit call and
succeeds on its tabulated MT 2. -/
theorem c5_omitted_temperature_resolution_witness :
    sampleBe9.microscopic_cross_section 2 none =
      .error (.multipleTemperaturesLoaded ["294", "300"]) ∧
    sampleBe9single.microscopic_cross_section 2 none =
      sampleBe9single.microscopic_cross_section 2 (some "294") ∧
    sampleBe9single.microscopic_cross_section 2 none =
      .ok (rElastic294.energy, rElastic294.cross_section) :=
  ⟨(c5_omitted_temperature_resolution sampleBe9 2).1.mpr (by decide),
   (c5_omitted_temperature_resolution sampleBe9single 2).2.1 "294" rfl,
   (c5_omitted_temperature_resolution sampleBe9single 2).2.2 "294"
     [(2, rElastic294), (102, rGamma294)] rElastic294 rfl rfl rfl⟩

/-- C6: loading with an explicit temperature list that is a subset of the
source's temperatures succeeds; afterwards `available_temperatures` lists
every label present in the source, `loaded_temperatures` equals the
requested list, and the reactions mapping holds keys for the requested
temperatures only. -/
theorem c6_selective_temperature_loading (nm : String) (src : NuclideSource)
    (ts : List String) (hsub : ∀ t ∈ ts, t ∈ src.data.map (·.1)) :
    ∃ nuc, read_nuclide_from_json nm src (some ts) = .ok nuc ∧
      nuc.available_temperatures = src.data.map (·.1) ∧
      nuc.loaded_temperatures = ts ∧
      (∀ t, t ∈ nuc.reactions.map (·.1) ↔ t ∈ ts) := by
  have hfind : ts.find? (fun t => !(src.data.map (·.1)).contains t) = none := by
    rw [List.find?_eq_none]
    intro x hx
    have h1 : (src.data.map (·.1)).contains x = true :=
      List.elem_eq_true_of_mem (hsub x hx)
    rw [h1]
    simp
  refine ⟨{ name := nm, available_temperatures := src.data.map (·.1),
            loaded_temperatures := ts,
            reactions := src.data.filter (fun p => ts.contains p.1) }, ?_, rfl, rfl, ?_⟩
  · simp only [read_nuclide_from_json, hfind]
  · intro t
    constructor
    · intro hmem
      rcases List.mem_map.mp hmem with ⟨p, hp, rfl⟩
      have hc := (List.mem_filter.mp hp).2
      simpa using hc
    · intro ht
      rcases List.mem_map.mp (hsub t ht) with ⟨p, hp, hpt⟩
      exact List.mem_map.mpr ⟨p, List.mem_filter.mpr ⟨hp, by simp [hpt, ht]⟩, hpt⟩

/-- Witness for C6 at the sample two-temperature source with the
requested list ["300"], as in `test_read_be9_selective_single_temperature`. -/
theorem c6_selective_temperature_loading_witness :
    (∀ t ∈ ["300"], t ∈ sampleSource.data.map (·.1)) ∧
    (∃ nuc, read_nuclide_from_json "Be9" sampleSource (some ["300"]) = .ok nuc ∧
      nuc.available_temperatures = sampleSource.data.map (·.1) ∧
      nuc.loaded_temperatures = ["300"] ∧
      (∀ t, t ∈ nuc.reactions.map (·.1) ↔ t ∈ ["300"])) :=
  ⟨by decide,
   c6_selective_temperature_loading "Be9" sampleSource ["300"] (by decide)⟩

/-- C1 counterexample: for Li6/Li7 at fractions 0.5/0.5 and density
1.0 g/cm³, the value `get_atoms_per_cc` returns for Li6 (≈3.24e23, the
value `test_get_atoms_per_cc` expects) differs from the claim's formula
N_A·ρ·f/D with D = Σⱼ fⱼ·Mⱼ (≈4.62e22) — the atom-fraction mass-weighted
denominator of the claim does not describe the computed values. -/
theorem c1_counterexample :
    (List.lookup "Li6" liMaterial.get_atoms_per_cc).getD 0 ≠
      avogadro * 1 * (1 / 2) /
        ((1 / 2) * massOr1 "Li6" + (1 / 2) * massOr1 "Li7") := by
  norm_num +decide [liMaterial, Material.new, Material.add_nuclide, Material.set_density,
    insertNuclide, Material.get_atoms_per_cc, massOr1, atomicMassOf, avogadro, List.lookup]

/-- C1 (amended): for every Material with density ρ in g/cm³,
`get_atoms_per_cc` returns, for each nuclide i,
Nᵢ = N_A·ρ·(fᵢ/Mᵢ)/D with D = Σⱼ fⱼ/Mⱼ; in particular for Li6/Li7 at
fractions 0.5/0.5 and density 1.0 g/cm³ the returned values are within
1% of the 3.24e23 and 2.78e23 atoms/cm³ the test expects. -/
theorem c1_amended_atoms_per_cc :
    (∀ (m : Material) (rho : ℚ), m.density = some ("g/cm3", rho) →
      m.get_atoms_per_cc = m.nuclides.map (fun p =>
        (p.1, avogadro * rho * (p.2 / massOr1 p.1) /
          (m.nuclides.map (fun q => q.2 / massOr1 q.1)).sum))) ∧
    |(List.lookup "Li6" liMaterial.get_atoms_per_cc).getD 0 - 3.24e23| ≤ 0.01 * 3.24e23 ∧
    |(List.lookup "Li7" liMaterial.get_atoms_per_cc).getD 0 - 2.78e23| ≤ 0.01 * 2.78e23 := by
  refine ⟨?_, ?_, ?_⟩
  · intro m rho h
    simp only [Material.get_atoms_per_cc, h]
    rw [if_neg (by decide : ¬("g/cm3" : String) = "atom/b-cm")]
    rw [if_neg (by decide : ¬("g/cm3" : String) = "kg/m3")]
  · rw [abs_le]
    norm_num +decide [liMaterial, Material.new, Material.add_nuclide, Material.set_density,
      insertNuclide, Material.get_atoms_per_cc, massOr1, atomicMassOf, avogadro, List.lookup]
  · rw [abs_le]
    norm_num +decide [liMaterial, Material.new, Material.add_nuclide, Material.set_density,
      insertNuclide, Material.get_atoms_per_cc, massOr1, atomicMassOf, avogadro, List.lookup]
    all_goals simp
    all_goals norm_num

/-- Witness for C1 (amended) at the Li6/Li7 material of
`test_get_atoms_per_cc`. -/
theorem c1_amended_atoms_per_cc_witness :
    liMaterial.density = some ("g/cm3", 1) ∧
    liMaterial.get_atoms_per_cc = liMaterial.nuclides.map (fun p =>
      (p.1, avogadro * 1 * (p.2 / massOr1 p.1) /
        (liMaterial.nuclides.map (fun q => q.2 / massOr1 q.1)).sum)) :=
  ⟨rfl, c1_amended_atoms_per_cc.1 liMaterial 1 rfl⟩

/-- An MT a nuclide does not carry interpolates to zero. -/
theorem microAt_zero_of_not_carries (nd : List (Nat × Reaction)) (c : Nat) (E : ℚ)
    (h : ndCarries nd c = false) : microAt nd c E = 0 := by
  unfold microAt
  unfold ndCarries at h
  cases hl : List.lookup c nd with
  | none => rfl
  | some r => rw [hl] at h; simp at h

/-- An MT no composition nuclide carries has zero macroscopic value. -/
theorem macroAt_zero_of_not_carries (m : Material) (c : Nat) (E : ℚ)
    (h : m.carries c = false) : m.macroAt c E = 0 := by
  unfold Material.macroAt
  unfold Material.carries at h
  rw [List.any_eq_false] at h
  have hz : ∀ p ∈ m.nuclides,
      m.atomsOf p.1 * microAt (m.dataOf p.1) c E * barnToCm2 = 0 := by
    intro p hp
    rw [microAt_zero_of_not_carries (m.dataOf p.1) c E (by simpa using h p hp),
      mul_zero, zero_mul]
  rw [List.map_congr_left hz]
  simp

/-- Per-nuclide-then-summed sum-rule synthesis equals the sum over
children present in the data of the children's own macroscopic values. -/
theorem synthAt_eq_sum_children (m : Material) (cs : List Nat) (E : ℚ) :
    m.synthAt cs E =
      ((cs.filter (fun c => m.carries c)).map (fun c => m.macroAt c E)).sum := by
  unfold Material.synthAt
  have step1 : ∀ p ∈ m.nuclides,
      m.atomsOf p.1 * synthNuclideAt (m.dataOf p.1) cs E * barnToCm2 =
      (cs.map (fun c => m.atomsOf p.1 * microAt (m.dataOf p.1) c E * barnToCm2)).sum := by
    intro p _
    unfold synthNuclideAt
    rw [sum_filter_zero_q _ _ _ (fun c _ hcf => microAt_zero_of_not_carries _ c E hcf)]
    exact mul_sum_mul_q _ _ _ _
  rw [List.map_congr_left step1, sum_comm_q,
    sum_filter_zero_q cs (fun c => m.carries c) (fun c => m.macroAt c E)
      (fun c _ hcf => macroAt_zero_of_not_carries m c E hcf)]
  rfl

/-- C3: when no composition nuclide directly carries MT 3, a macroscopic
request with mt_filter [3] synthesises MT 3: the returned array is
present, and each of its values equals the sum, over the sum-rule child
MTs present in the data, of the child's macroscopic values on the same
unified grid. -/
theorem c3_mt3_sum_rule_synthesis (m : Material)
    (h3 : m.carries 3 = false)
    (hch : mt3Children.any (fun c => m.carries c) = true) :
    List.lookup 3 (m.calculate_macroscopic_xs_neutron (some [3])) =
      some (m.unified_energy_grid_neutron.map (fun E =>
        ((mt3Children.filter (fun c => m.carries c)).map
          (fun c => m.macroAt c E)).sum)) := by
  have hentry : m.macroEntry m.unified_energy_grid_neutron 3 =
      some (3, m.unified_energy_grid_neutron.map (m.synthAt mt3Children)) := by
    unfold Material.macroEntry
    rw [h3]
    simp [sumRuleChildren, hch]
  unfold Material.calculate_macroscopic_xs_neutron Material.requestedMTs
  rw [List.filterMap_cons, hentry, List.filterMap_nil]
  simp only [List.lookup, beq_self_eq_true]
  exact congrArg some
    (List.map_congr_left (fun E _ => synthAt_eq_sum_children m mt3Children E))

/-- Witness for C3 at the sample lithium material, whose data tabulates
the MT 3 children 24 and 102 but not MT 3 itself. -/
theorem c3_mt3_sum_rule_synthesis_witness :
    liDataMaterial.carries 3 = false ∧
    mt3Children.any (fun c => liDataMaterial.carries c) = true ∧
    List.lookup 3 (liDataMaterial.calculate_macroscopic_xs_neutron (some [3])) =
      some (liDataMaterial.unified_energy_grid_neutron.map (fun E =>
        ((mt3Children.filter (fun c => liDataMaterial.carries c)).map
          (fun c => liDataMaterial.macroAt c E)).sum)) :=
  ⟨by decide, by decide,
   c3_mt3_sum_rule_synthesis liDataMaterial (by decide) (by decide)⟩

/-! ### Density-scaling lemmas -/

theorem sum_map_mul_left_q {α : Type} (c : ℚ) (l : List α) (f : α → ℚ) :
    (l.map (fun x => c * f x)).sum = c * (l.map f).sum := by
  induction l with
  | nil => simp
  | cons a t ih =>
    rw [List.map_cons, List.sum_cons, List.map_cons, List.sum_cons, ih]
    ring

theorem lookup_map_rel_q {α β γ : Type} [BEq α] (l : List (α × β)) (f g : α × β → γ)
    (φ : γ → γ) (hfg : ∀ p, f p = φ (g p)) (k : α) :
    List.lookup k (l.map (fun p => (p.1, f p))) =
      (List.lookup k (l.map (fun p => (p.1, g p)))).map φ := by
  induction l with
  | nil => rfl
  | cons a t ih =>
    simp only [List.map_cons, List.lookup]
    cases k == a.1
    · simpa using ih
    · simp [hfg a]

theorem filterMap_congr_q {α β : Type} (l : List α) (f g : α → Option β)
    (h : ∀ x ∈ l, f x = g x) : l.filterMap f = l.filterMap g := by
  induction l with
  | nil => rfl
  | cons a t ih =>
    rw [List.filterMap_cons, List.filterMap_cons, h a (List.mem_cons_self a t),
      ih (fun x hx => h x (List.mem_cons_of_mem a hx))]

theorem set_density_density (m : Material) (u : String) (v : ℚ) :
    (m.set_density u v).density = some (u, v) := rfl

theorem set_density_nuclides (m : Material) (u : String) (v : ℚ) :
    (m.set_density u v).nuclides = m.nuclides := rfl

theorem set_density_dataOf (m : Material) (u : String) (v : ℚ) (id : String) :
    (m.set_density u v).dataOf id = m.dataOf id := rfl

theorem set_density_carries (m : Material) (u : String) (v : ℚ) (mt : Nat) :
    (m.set_density u v).carries mt = m.carries mt := rfl

theorem set_density_grid (m : Material) (u : String) (v : ℚ) :
    (m.set_density u v).unified_energy_grid_neutron = m.unified_energy_grid_neutron := rfl

theorem set_density_requestedMTs (m : Material) (u : String) (v : ℚ)
    (mtf : Option (List Nat)) :
    (m.set_density u v).requestedMTs mtf = m.requestedMTs mtf := by
  cases mtf <;> rfl

/-- Closed form of `get_atoms_per_cc` for a mass density in g/cm³. -/
theorem atoms_per_cc_gcc (m : Material) (rho : ℚ)
    (h : m.density = some ("g/cm3", rho)) :
    m.get_atoms_per_cc = m.nuclides.map (fun p =>
      (p.1, avogadro * rho * (p.2 / massOr1 p.1) /
        (m.nuclides.map (fun q => q.2 / massOr1 q.1)).sum)) := by
  simp only [Material.get_atoms_per_cc, h]
  rw [if_neg (by decide : ¬("g/cm3" : String) = "atom/b-cm")]
  rw [if_neg (by decide : ¬("g/cm3" : String) = "kg/m3")]

/-- Doubling a g/cm³ density doubles every atoms-per-cm³ value. -/
theorem atomsOf_double (m : Material) (rho : ℚ)
    (h : m.density = some ("g/cm3", rho)) (id : String) :
    (m.set_density "g/cm3" (2 * rho)).atomsOf id = 2 * m.atomsOf id := by
  unfold Material.atomsOf
  rw [atoms_per_cc_gcc _ (2 * rho) (set_density_density m _ _),
    atoms_per_cc_gcc m rho h, set_density_nuclides,
    lookup_map_rel_q m.nuclides
      (fun p => avogadro * (2 * rho) * (p.2 / massOr1 p.1) /
        (m.nuclides.map (fun q => q.2 / massOr1 q.1)).sum)
      (fun p => avogadro * rho * (p.2 / massOr1 p.1) /
        (m.nuclides.map (fun q => q.2 / massOr1 q.1)).sum)
      (fun v => 2 * v) (fun p => by ring) id]
  cases List.lookup id (m.nuclides.map (fun p =>
      (p.1, avogadro * rho * (p.2 / massOr1 p.1) /
        (m.nuclides.map (fun q => q.2 / massOr1 q.1)).sum))) with
  | none => simp
  | some v => simp

/-- Doubling a g/cm³ density doubles the direct macroscopic value. -/
theorem macroAt_double (m : Material) (rho : ℚ)
    (h : m.density = some ("g/cm3", rho)) (mt : Nat) (E : ℚ) :
    (m.set_density "g/cm3" (2 * rho)).macroAt mt E = 2 * m.macroAt mt E := by
  unfold Material.macroAt
  rw [set_density_nuclides]
  have hcong : ∀ p ∈ m.nuclides,
      (m.set_density "g/cm3" (2 * rho)).atomsOf p.1 *
        microAt ((m.set_density "g/cm3" (2 * rho)).dataOf p.1) mt E * barnToCm2 =
      2 * (m.atomsOf p.1 * microAt (m.dataOf p.1) mt E * barnToCm2) := by
    intro p _
    rw [set_density_dataOf, atomsOf_double m rho h p.1]
    ring
  rw [List.map_congr_left hcong, sum_map_mul_left_q]

/-- Doubling a g/cm³ density doubles the synthesised macroscopic value. -/
theorem synthAt_double (m : Material) (rho : ℚ)
    (h : m.density = some ("g/cm3", rho)) (cs : List Nat) (E : ℚ) :
    (m.set_density "g/cm3" (2 * rho)).synthAt cs E = 2 * m.synthAt cs E := by
  unfold Material.synthAt
  rw [set_density_nuclides]
  have hcong : ∀ p ∈ m.nuclides,
      (m.set_density "g/cm3" (2 * rho)).atomsOf p.1 *
        synthNuclideAt ((m.set_density "g/cm3" (2 * rho)).dataOf p.1) cs E * barnToCm2 =
      2 * (m.atomsOf p.1 * synthNuclideAt (m.dataOf p.1) cs E * barnToCm2) := by
    intro p _
    rw [set_density_dataOf, atomsOf_double m rho h p.1]
    ring
  rw [List.map_congr_left hcong, sum_map_mul_left_q]

/-- Doubling a g/cm³ density maps every macroscopic entry to its
pointwise double. -/
theorem macroEntry_double (m : Material) (rho : ℚ)
    (h : m.density = some ("g/cm3", rho)) (grid : List ℚ) (mt : Nat) :
    (m.set_density "g/cm3" (2 * rho)).macroEntry grid mt =
      (m.macroEntry grid mt).map (fun p => (p.1, p.2.map (fun v => 2 * v))) := by
  unfold Material.macroEntry
  simp only [set_density_carries]
  cases hcar : m.carries mt with
  | true =>
    simp only [hcar, if_true, Option.map_some']
    refine congrArg some (congrArg (Prod.mk mt) ?_)
    rw [List.map_map]
    exact List.map_congr_left (fun E _ => macroAt_double m rho h mt E)
  | false =>
    simp only [hcar, Bool.false_eq_true, if_false]
    cases hsr : sumRuleChildren mt with
    | none => rfl
    | some cs =>
      cases hany : cs.any (fun c => m.carries c) with
      | false => simp [hany]
      | true =>
        simp only [hany, if_true, Option.map_some']
        refine congrArg some (congrArg (Prod.mk mt) ?_)
        rw [List.map_map]
        exact List.map_congr_left (fun E _ => synthAt_double m rho h cs E)

/-- C7: for a material with density declared in g/cm³, doubling the
density value doubles every per-nuclide atoms-per-cm³ value and doubles
every entry of every macroscopic cross-section array. -/
theorem c7_density_doubling_linearity (m : Material) (rho : ℚ)
    (h : m.density = some ("g/cm3", rho)) :
    (∀ id, List.lookup id (m.set_density "g/cm3" (2 * rho)).get_atoms_per_cc =
      (List.lookup id m.get_atoms_per_cc).map (fun v => 2 * v)) ∧
    (∀ mtf mt, List.lookup mt
        ((m.set_density "g/cm3" (2 * rho)).calculate_macroscopic_xs_neutron mtf) =
      (List.lookup mt (m.calculate_macroscopic_xs_neutron mtf)).map
        (fun arr => arr.map (fun v => 2 * v))) := by
  constructor
  · intro id
    rw [atoms_per_cc_gcc _ (2 * rho) (set_density_density m _ _),
      atoms_per_cc_gcc m rho h, set_density_nuclides]
    exact lookup_map_rel_q m.nuclides _ _ (fun v => 2 * v) (fun p => by ring) id
  · intro mtf mt
    unfold Material.calculate_macroscopic_xs_neutron
    rw [set_density_requestedMTs, set_density_grid,
      filterMap_congr_q _ _ _
        (fun x _ => macroEntry_double m rho h m.unified_energy_grid_neutron x),
      ← List.map_filterMap]
    exact lookup_map_snd_q _ _ mt

/-- Witness for C7 at the sample lithium material (density 1 g/cm³
doubled to 2), instantiated at Li6 and the elastic MT 2. -/
theorem c7_density_doubling_linearity_witness :
    liDataMaterial.density = some ("g/cm3", 1) ∧
    List.lookup "Li6" (liDataMaterial.set_density "g/cm3" (2 * 1)).get_atoms_per_cc =
      (List.lookup "Li6" liDataMaterial.get_atoms_per_cc).map (fun v => 2 * v) ∧
    List.lookup 2
        ((liDataMaterial.set_density "g/cm3" (2 * 1)).calculate_macroscopic_xs_neutron
          (some [2])) =
      (List.lookup 2 (liDataMaterial.calculate_macroscopic_xs_neutron (some [2]))).map
        (fun arr => arr.map (fun v => 2 * v)) :=
  ⟨rfl,
   (c7_density_doubling_linearity liDataMaterial 1 rfl).1 "Li6",
   (c7_density_doubling_linearity liDataMaterial 1 rfl).2 (some [2]) 2⟩

/-! ### Lemmas relating the macroscopic and microscopic computations -/

theorem getD_map_q (l : List ℚ) (f : ℚ → ℚ) (k : Nat) (hk : k < l.length) :
    (l.map f).getD k 0 = f (l.getD k 0) := by
  rw [List.getD_eq_getElem?_getD, List.getD_eq_getElem?_getD, List.getElem?_map,
    List.getElem?_eq_getElem hk]
  simp

theorem mem_keys_of_carries (nd : List (Nat × Reaction)) (mt : Nat)
    (h : ndCarries nd mt = true) : mt ∈ nd.map (·.1) := by
  induction nd with
  | nil => simp [ndCarries, List.lookup] at h
  | cons a t ih =>
    by_cases hma : mt = a.1
    · exact List.mem_map.mpr ⟨a, List.mem_cons_self a t, hma.symm⟩
    · have hb : (mt == a.1) = false := beq_eq_false_iff_ne.mpr hma
      have ht : ndCarries t mt = true := by
        unfold ndCarries List.lookup at h
        rwa [hb] at h
      rw [List.map_cons]
      exact List.mem_cons_of_mem a.1 (ih ht)

theorem not_carries_of_not_mem_keys (nd : List (Nat × Reaction)) (mt : Nat)
    (h : mt ∉ nd.map (·.1)) : ndCarries nd mt = false := by
  cases hc : ndCarries nd mt with
  | false => rfl
  | true => exact absurd (mem_keys_of_carries nd mt hc) h

/-- C8: for every MT some nuclide carries directly and every unified-grid
index, the macroscopic value agrees with
Σᵢ Nᵢ · microscopic_xs[i][MT][k] · 1e-24 — with microscopic_xs the
per-nuclide result of `calculate_microscopic_xs_neutron` on the same
grid — within relative tolerance 1e-12. -/
theorem c8_macroscopic_formula (m : Material) (mt k : Nat)
    (hc : m.carries mt = true) (hk : k < m.unified_energy_grid_neutron.length) :
    ∃ arr, List.lookup mt (m.calculate_macroscopic_xs_neutron (some [mt])) = some arr ∧
      |arr.getD k 0 -
        (m.nuclides.map (fun p => m.atomsOf p.1 *
          ((List.lookup mt ((List.lookup p.1
              (m.calculate_microscopic_xs_neutron none)).getD [])).getD []).getD k 0 *
          barnToCm2)).sum| ≤
      1e-12 *
      |(m.nuclides.map (fun p => m.atomsOf p.1 *
          ((List.lookup mt ((List.lookup p.1
              (m.calculate_microscopic_xs_neutron none)).getD [])).getD []).getD k 0 *
          barnToCm2)).sum| := by
  have hentry : m.macroEntry m.unified_energy_grid_neutron mt =
      some (mt, m.unified_energy_grid_neutron.map (m.macroAt mt)) := by
    unfold Material.macroEntry
    rw [hc]
    simp
  have hlook : List.lookup mt (m.calculate_macroscopic_xs_neutron (some [mt])) =
      some (m.unified_energy_grid_neutron.map (m.macroAt mt)) := by
    unfold Material.calculate_macroscopic_xs_neutron Material.requestedMTs
    rw [List.filterMap_cons, hentry, List.filterMap_nil]
    simp [List.lookup]
  refine ⟨_, hlook, ?_⟩
  have hmicro : m.calculate_microscopic_xs_neutron none =
      m.nuclides.map (fun p => (p.1,
        ((m.dataOf p.1).map (·.1)).map (fun mtx =>
          (mtx, m.unified_energy_grid_neutron.map (microAt (m.dataOf p.1) mtx))))) := rfl
  have hterm : ∀ p ∈ m.nuclides,
      m.atomsOf p.1 *
        ((List.lookup mt ((List.lookup p.1
            (m.calculate_microscopic_xs_neutron none)).getD [])).getD []).getD k 0 *
        barnToCm2 =
      m.atomsOf p.1 *
        microAt (m.dataOf p.1) mt (m.unified_energy_grid_neutron.getD k 0) *
        barnToCm2 := by
    intro p hp
    rw [hmicro, lookup_keyed_str_q
      (fun id => ((m.dataOf id).map (·.1)).map (fun mtx =>
        (mtx, m.unified_energy_grid_neutron.map (microAt (m.dataOf id) mtx))))
      m.nuclides p.1 (List.mem_map.mpr ⟨p, hp, rfl⟩)]
    rw [Option.getD_some, lookup_graph_q]
    by_cases hmem : mt ∈ (m.dataOf p.1).map (·.1)
    · rw [if_pos hmem, Option.getD_some, getD_map_q _ _ k hk]
    · rw [if_neg hmem, Option.getD_none,
        microAt_zero_of_not_carries _ _ _ (not_carries_of_not_mem_keys _ _ hmem)]
      simp
  rw [List.map_congr_left hterm, getD_map_q _ _ k hk]
  have hsum : m.macroAt mt (m.unified_energy_grid_neutron.getD k 0) =
      (m.nuclides.map (fun p => m.atomsOf p.1 *
        microAt (m.dataOf p.1) mt (m.unified_energy_grid_neutron.getD k 0) *
        barnToCm2)).sum := rfl
  rw [hsum, sub_self, abs_zero]
  exact mul_nonneg (by norm_num) (abs_nonneg _)

/-- The sample lithium material's unified energy grid: the sorted,
deduplicated merge of all sample reaction grids. -/
theorem liDataMaterial_grid : liDataMaterial.unified_energy_grid_neutron = [1, 10, 100] := by
  norm_num [Material.unified_energy_grid_neutron, Material.allEnergies, Material.dataOf,
    liDataMaterial, li6Data, li7Data, List.insertionSort, List.orderedInsert,
    dedupGrid, gridTolerance, List.lookup]

/-- Witness for C8 at the sample lithium material, the elastic MT 2 and
grid index 0. -/
theorem c8_macroscopic_formula_witness :
    liDataMaterial.carries 2 = true ∧
    0 < liDataMaterial.unified_energy_grid_neutron.length ∧
    (∃ arr, List.lookup 2 (liDataMaterial.calculate_macroscopic_xs_neutron (some [2])) =
        some arr ∧
      |arr.getD 0 0 -
        (liDataMaterial.nuclides.map (fun p => liDataMaterial.atomsOf p.1 *
          ((List.lookup 2 ((List.lookup p.1
              (liDataMaterial.calculate_microscopic_xs_neutron none)).getD [])).getD []).getD 0 0 *
          barnToCm2)).sum| ≤
      1e-12 *
      |(liDataMaterial.nuclides.map (fun p => liDataMaterial.atomsOf p.1 *
          ((List.lookup 2 ((List.lookup p.1
              (liDataMaterial.calculate_microscopic_xs_neutron none)).getD [])).getD []).getD 0 0 *
          barnToCm2)).sum|) :=
  ⟨by decide,
   by rw [liDataMaterial_grid]; norm_num,
   c8_macroscopic_formula liDataMaterial 2 0 (by decide)
     (by rw [liDataMaterial_grid]; norm_num)⟩

end MaterialsForMC
